import Mathlib

/-
Shallow embedding of the gRPC store-service handlers in src/grpcServer.js.

Modelling conventions:
- JavaScript dynamic values (the free-form product metadata and the three
  extra product fields) are modelled by the inductive JSValue; absence of a
  field (undefined) is modelled by Option.none.
- String-typed record fields that the source reads with the JavaScript
  truthiness operators (x || d, !x) are modelled as Option String; the
  helper strOr implements the JavaScript fallback x || d for strings, under
  which an empty string behaves like an absent field.
- gRPC call metadata is a function from header keys to the list of values
  attached under that key, mirroring grpc-js Metadata.get which returns an
  array of values (empty when the key was never set).
- The collaborator services (shopService.getShopById and
  productService.getProductById2) are modelled as functions returning
  Except: an error value models a rejected promise, which the try/catch of
  each handler maps to an INTERNAL RPC error.
- Each handler is a pure function of the call metadata, the request and the
  collaborator; it returns the callback outcome together with the number of
  shop-directory and product-catalog lookups it performed, so that the
  no-lookup claims can be stated as call-count facts.
- getStoreInfo additionally takes the current wall clock (Date.now(),
  epoch milliseconds) as an explicit argument because its found branch
  reads it when the record has no usable updated_at; the shop field
  updated_at is modelled as the epoch-millisecond reading of the stored
  timestamp.
-/

namespace RetailGrpc

/-- JavaScript runtime values, as far as the product-metadata mapping code
observes them: strings, numbers (the claims only exercise integral values,
so numbers are modelled by Int), booleans, null, objects and arrays.
An absent (undefined) value is represented by Option.none at use sites. -/
inductive JSValue where
  | str (s : String)
  | num (n : Int)
  | bool (b : Bool)
  | null
  | obj (fields : List (String × JSValue))
  | arr (elems : List JSValue)

/-- JavaScript truthiness of a value, matching the if tests in the source. -/
def jsTruthy : JSValue → Bool
  | .str s => s ≠ ""
  | .num n => n ≠ 0
  | .bool b => b
  | .null => false
  | .obj _ => true
  | .arr _ => true

/-- The JavaScript test of whether typeof v is the string object; true for
objects, arrays and null. -/
def isObjectType : JSValue → Bool
  | .obj _ => true
  | .arr _ => true
  | .null => true
  | _ => false

/-- One hexadecimal digit, for JSON control-character escapes. -/
def hexDigit (n : Nat) : String :=
  String.singleton (if n < 10 then Char.ofNat (48 + n) else Char.ofNat (87 + n))

/-- JSON escaping of a single character, as JSON.stringify performs it. -/
def jsonEscapeChar (c : Char) : String :=
  if c = '\"' then "\\\""
  else if c = '\\' then "\\\\"
  else if c = '\n' then "\\n"
  else if c = '\t' then "\\t"
  else if c = '\r' then "\\r"
  else if c.toNat < 32 then "\\u00" ++ hexDigit (c.toNat / 16) ++ hexDigit (c.toNat % 16)
  else String.singleton c

/-- JSON quoting of a string, as JSON.stringify performs it. -/
def jsonQuote (s : String) : String :=
  "\"" ++ String.join (s.toList.map jsonEscapeChar) ++ "\""

mutual

/-- The JSON.stringify serialization used by the source for structured
metadata values. -/
def jsonStringify : JSValue → String
  | .str s => jsonQuote s
  | .num n => toString n
  | .bool b => if b then "true" else "false"
  | .null => "null"
  | .obj fs => "\x7b" ++ jsonFields fs ++ "\x7d"
  | .arr es => "[" ++ jsonElems es ++ "]"

/-- Serialization of the comma-separated field list of a JSON object. -/
def jsonFields : List (String × JSValue) → String
  | [] => ""
  | (k, v) :: rest =>
    jsonQuote k ++ ":" ++ jsonStringify v ++
      (if rest.isEmpty then "" else ",") ++ jsonFields rest

/-- Serialization of the comma-separated element list of a JSON array. -/
def jsonElems : List JSValue → String
  | [] => ""
  | v :: rest => jsonStringify v ++ (if rest.isEmpty then "" else ",") ++ jsonElems rest

end

mutual

/-- The String(v) conversion of JavaScript, used by the source for scalar
metadata values and the three injected product fields. -/
def jsToString : JSValue → String
  | .str s => s
  | .num n => toString n
  | .bool b => if b then "true" else "false"
  | .null => "null"
  | .obj _ => "[object Object]"
  | .arr es => jsArrayJoin es

/-- Array toString: elements joined with commas, null rendered empty. -/
def jsArrayJoin : List JSValue → String
  | [] => ""
  | .null :: rest => (if rest.isEmpty then "" else ",") ++ jsArrayJoin rest
  | v :: rest => jsToString v ++ (if rest.isEmpty then "" else ",") ++ jsArrayJoin rest

end

/-- JavaScript string fallback x || d: the stored value when it is a
non-empty string, the default d when the field is absent or empty. -/
def strOr (o : Option String) (d : String) : String :=
  match o with
  | some s => if s = "" then d else s
  | none => d

/-- JavaScript truthiness of a possibly absent string request field:
true exactly when the field is present and non-empty. -/
def strTruthy (o : Option String) : Bool :=
  match o with
  | some s => s ≠ ""
  | none => false

/-- Call metadata: grpc-js Metadata.get returns the list of values set
under a key, the empty list when the key was never set. -/
def Metadata : Type := String → List String

/-- Metadata value built from an association list of keys to value lists. -/
def mdOf (l : List (String × List String)) : Metadata :=
  fun k => ((l.find? (fun p => p.1 == k)).map (fun p => p.2)).getD []

/-- Shop record returned by shopService.getShopById, restricted to the
fields the handlers read. Fields the source reads with JavaScript
truthiness are Option String; updated_at is the epoch-millisecond reading
of the stored timestamp. -/
structure Shop where
  id : Option String := none
  name : Option String := none
  status : Option String := none
  address : Option String := none
  contact_no : Option String := none
  shop_admin_email : Option String := none
  shopType : Option String := none
  updated_at : Option Nat := none

/-- Product record returned by productService.getProductById2, restricted
to the fields the handler reads. -/
structure Product where
  stripeCode : Option String := none
  title : Option String := none
  category : Option String := none
  picture : Option String := none
  price : Option Int := none
  purchasePrice : Option Int := none
  shopId : Option String := none
  _id : Option String := none
  id : Option String := none
  metadata : Option JSValue := none
  units : Option JSValue := none
  isVending : Option JSValue := none
  availableItems : Option JSValue := none

/-- The two collaborator lookups the handlers call; Except.error models a
rejected promise carrying the error message, Except.ok none a not-found
result. -/
structure Collaborators where
  getShopById : String → String → Except String (Option Shop)
  getProductById2 : String → String → String → Except String (Option Product)

/-- Request of VerifyStoreAccess and GetStoreInfo; none models an absent
field. -/
structure StoreRequest where
  project_id : Option String
  store_id : Option String
deriving DecidableEq

/-- Request of GetProductByStripeCode. -/
structure ProductRequest where
  project_id : Option String
  store_id : Option String
  stripe_code : Option String
deriving DecidableEq

/-- The gRPC status codes the handlers use. -/
inductive GrpcStatus where
  | invalidArgument
  | internal
deriving DecidableEq

/-- Outcome passed to the gRPC callback: a typed error or a response. -/
inductive RpcOutcome (α : Type) where
  | err (code : GrpcStatus) (message : String)
  | ok (response : α)
deriving DecidableEq

/-- True exactly when the outcome is a successful response. -/
def RpcOutcome.isOk : RpcOutcome α → Bool
  | .ok _ => true
  | .err _ _ => false

/-- Result of running a handler: the callback outcome plus the number of
shop-directory and product-catalog lookups performed during the call. -/
structure HandlerResult (α : Type) where
  outcome : RpcOutcome α
  shopCalls : Nat
  productCalls : Nat
deriving DecidableEq

/-- Response message of VerifyStoreAccess. -/
structure AccessResponse where
  has_access : Bool
  message : String
  store_id : String
  project_id : String
deriving DecidableEq

/-- Response message of GetStoreInfo. -/
structure StoreInfoResponse where
  «exists» : Bool
  store_id : String
  name : String
  environment : String
  project_id : String
  metadata : List (String × String)
  updated_at : Nat
deriving DecidableEq

/-- Response message of GetProductByStripeCode. -/
structure ProductResponse where
  «exists» : Bool
  stripe_code : String
  title : String
  category : String
  picture : String
  price : Int
  purchase_price : Int
  shop_id : String
  _id : String
  metadata : List (String × String)
deriving DecidableEq

/-- Environment resolution from call metadata (getEnvironmentFromMetadata
in the source): read the env key, fall back to x-environment when env has
no values, take the first value, and pass it through only when it equals
prod or master, defaulting to demo otherwise. -/
def getEnvironmentFromMetadata (call : Metadata) : String :=
  let metadata := call
  let envHeader := metadata "env"
  let envHeader := if envHeader.length = 0 then metadata "x-environment" else envHeader
  let env : Option String := if envHeader.length > 0 then envHeader.head? else none
  match env with
  | some e => if e = "prod" ∨ e = "master" then e else "demo"
  | none => "demo"

/-- VerifyStoreAccess handler (verifyStoreAccess in the source). -/
def verifyStoreAccess (c : Collaborators) (call : Metadata) (req : StoreRequest) :
    HandlerResult AccessResponse :=
  if !(strTruthy req.project_id) || !(strTruthy req.store_id) then
    ⟨.err .invalidArgument "project_id and store_id are required", 0, 0⟩
  else
    let project_id := req.project_id.getD ""
    let store_id := req.store_id.getD ""
    let env := getEnvironmentFromMetadata call
    match c.getShopById env store_id with
    | .error e => ⟨.err .internal ("Internal error: " ++ e), 1, 0⟩
    | .ok none =>
      ⟨.ok ⟨false, "Store " ++ store_id ++ " not found", store_id, project_id⟩, 1, 0⟩
    | .ok (some shop) =>
      if shop.status = some "closed" then
        ⟨.ok ⟨false, "Store " ++ store_id ++ " is closed", store_id, project_id⟩, 1, 0⟩
      else
        ⟨.ok ⟨true, "Access granted", store_id, project_id⟩, 1, 0⟩

/-- GetStoreInfo handler (getStoreInfo in the source); nowMs is the
Date.now() reading, in epoch milliseconds, at the moment the found branch
computes updated_at. -/
def getStoreInfo (c : Collaborators) (call : Metadata) (req : StoreRequest)
    (nowMs : Nat) : HandlerResult StoreInfoResponse :=
  if !(strTruthy req.project_id) || !(strTruthy req.store_id) then
    ⟨.err .invalidArgument "project_id and store_id are required", 0, 0⟩
  else
    let project_id := req.project_id.getD ""
    let store_id := req.store_id.getD ""
    let env := getEnvironmentFromMetadata call
    match c.getShopById env store_id with
    | .error e => ⟨.err .internal ("Internal error: " ++ e), 1, 0⟩
    | .ok none =>
      ⟨.ok ⟨false, store_id, "", env, project_id, [], 0⟩, 1, 0⟩
    | .ok (some shop) =>
      let metadata : List (String × String) :=
        [("status", strOr shop.status ""),
         ("address", strOr shop.address ""),
         ("contact_no", strOr shop.contact_no ""),
         ("shop_admin_email", strOr shop.shop_admin_email ""),
         ("shopType", strOr shop.shopType "store")]
      let updatedAt : Nat :=
        match shop.updated_at with
        | some ms => if ms ≠ 0 then ms / 1000 else nowMs / 1000
        | none => nowMs / 1000
      ⟨.ok ⟨true, strOr shop.id store_id, strOr shop.name "", env, project_id,
            metadata, updatedAt⟩, 1, 0⟩

/-- The Object.entries enumeration the source performs on product.metadata
after the truthiness and typeof object guard: object fields in order, array
elements under their index keys, nothing for every other value. -/
def freeformEntries (m : Option JSValue) : List (String × JSValue) :=
  match m with
  | some (.obj fs) => fs
  | some (.arr es) => es.enum.map (fun p => (toString p.1, p.2))
  | _ => []

/-- Conversion of one free-form metadata value to a string: JSON text for
values of typeof object, String(v) otherwise. -/
def convertEntry (v : JSValue) : String :=
  if isObjectType v then jsonStringify v else jsToString v

/-- The base string map built from the free-form product metadata. -/
def freeformMetadataMap (p : Product) : List (String × String) :=
  (freeformEntries p.metadata).map (fun e => (e.1, convertEntry e.2))

/-- JavaScript property assignment m[k] = v on an object represented as an
association list in insertion order (keys of a JavaScript object are
unique): update the existing key in place, otherwise append. -/
def objSet : List (String × String) → String → String → List (String × String)
  | [], k, v => [(k, v)]
  | p :: rest, k, v => if p.1 = k then (k, v) :: rest else p :: objSet rest k v

/-- Construction of the response metadata map in the found-product branch:
the converted free-form entries, then units assigned only when truthy,
then isVending and availableItems assigned whenever defined. -/
def buildProductMetadata (p : Product) : List (String × String) :=
  let metadata := freeformMetadataMap p
  let metadata :=
    match p.units with
    | some u => if jsTruthy u then objSet metadata "units" (jsToString u) else metadata
    | none => metadata
  let metadata :=
    match p.isVending with
    | some v => objSet metadata "isVending" (jsToString v)
    | none => metadata
  let metadata :=
    match p.availableItems with
    | some v => objSet metadata "availableItems" (jsToString v)
    | none => metadata
  metadata

/-- The default not-found product response the source returns both when the
store and when the product is missing. -/
def notFoundProduct (stripe_code store_id : String) : ProductResponse :=
  ⟨false, stripe_code, "", "", "", 0, 0, store_id, "", []⟩

/-- GetProductByStripeCode handler (getProductByStripeCode in the source). -/
def getProductByStripeCode (c : Collaborators) (call : Metadata)
    (req : ProductRequest) : HandlerResult ProductResponse :=
  if !(strTruthy req.project_id) || !(strTruthy req.store_id) ||
      !(strTruthy req.stripe_code) then
    ⟨.err .invalidArgument "project_id, store_id, and stripe_code are required", 0, 0⟩
  else
    let store_id := req.store_id.getD ""
    let stripe_code := req.stripe_code.getD ""
    let env := getEnvironmentFromMetadata call
    match c.getShopById env store_id with
    | .error e => ⟨.err .internal ("Internal error: " ++ e), 1, 0⟩
    | .ok none => ⟨.ok (notFoundProduct stripe_code store_id), 1, 0⟩
    | .ok (some _shop) =>
      match c.getProductById2 env store_id stripe_code with
      | .error e => ⟨.err .internal ("Internal error: " ++ e), 1, 1⟩
      | .ok none => ⟨.ok (notFoundProduct stripe_code store_id), 1, 1⟩
      | .ok (some product) =>
        let metadata := buildProductMetadata product
        ⟨.ok ⟨true,
              strOr product.stripeCode stripe_code,
              strOr product.title "",
              strOr product.category "",
              strOr product.picture "",
              product.price.getD 0,
              product.purchasePrice.getD 0,
              strOr product.shopId store_id,
              strOr product._id (strOr product.id ""),
              metadata⟩, 1, 1⟩

/-- Lookup of a key in a string map represented as an association list. -/
def lookupStr : List (String × String) → String → Option String
  | [], _ => none
  | p :: rest, k => if p.1 = k then some p.2 else lookupStr rest k

/-- Environment resolution restated in the vocabulary of the specification:
select the env values, falling back to x-environment when env carries no
value; the first selected value passes through exactly when it equals prod
or master, and every other case resolves to demo. -/
def resolvedEnvSpec (call : Metadata) : String :=
  let selected := if call "env" = [] then call "x-environment" else call "env"
  match selected.head? with
  | some v => if v = "prod" ∨ v = "master" then v else "demo"
  | none => "demo"

/-- Call metadata with no entries at all. -/
def mdEmpty : Metadata := mdOf []

/-- A store record that exists and is not closed. -/
def shopOpen : Shop :=
  { id := some "s1", name := some "Shop One", status := some "open",
    address := some "1 High Street", contact_no := some "123",
    shop_admin_email := some "admin@example.com", shopType := some "vending",
    updated_at := some 5000 }

/-- A store record whose status is closed. -/
def shopClosed : Shop :=
  { id := some "s2", name := some "Shop Two", status := some "closed" }

/-- A store record carrying no last-updated timestamp. -/
def shopNoTimestamp : Shop :=
  { id := some "s1", name := some "Shop One", status := some "open" }

/-- The product record of the worked example in the specification:
free-form metadata with a scalar and a nested object, plus units equal
to 3. -/
def pExample : Product :=
  { metadata := some (.obj [("a", .num 1), ("b", .obj [("x", .num 2)])]),
    units := some (.num 3) }

/-- A product record whose units field is present but equal to 0. -/
def pUnitsZero : Product :=
  { metadata := some (.obj [("a", .num 1)]),
    units := some (.num 0) }

/-- A product record carrying only the three fixed-name injected fields. -/
def productWithFlags (u vi ai : Option JSValue) : Product :=
  { units := u, isVending := vi, availableItems := ai }

/-- Collaborator double: the store directory finds nothing. -/
def cShopNone : Collaborators :=
  ⟨fun _ _ => .ok none, fun _ _ _ => .ok none⟩

/-- Collaborator double: the store directory finds shopOpen and the product
catalog finds pExample. -/
def cShopOpen : Collaborators :=
  ⟨fun _ _ => .ok (some shopOpen), fun _ _ _ => .ok (some pExample)⟩

/-- Collaborator double: the store directory finds shopClosed. -/
def cShopClosed : Collaborators :=
  ⟨fun _ _ => .ok (some shopClosed), fun _ _ _ => .ok none⟩

/-- Collaborator double: both lookups reject with the message boom. -/
def cError : Collaborators :=
  ⟨fun _ _ => .error "boom", fun _ _ _ => .error "boom"⟩

/-- Collaborator double: store found, product lookup rejects. -/
def cProductError : Collaborators :=
  ⟨fun _ _ => .ok (some shopOpen), fun _ _ _ => .error "boom"⟩

/-- Collaborator double: store found, product not found. -/
def cProductNone : Collaborators :=
  ⟨fun _ _ => .ok (some shopOpen), fun _ _ _ => .ok none⟩

/-- Collaborator double: store found but without a timestamp. -/
def cNoTimestamp : Collaborators :=
  ⟨fun _ _ => .ok (some shopNoTimestamp), fun _ _ _ => .ok none⟩

/-- Collaborator double: store found, product found with units equal 0. -/
def cUnitsZero : Collaborators :=
  ⟨fun _ _ => .ok (some shopOpen), fun _ _ _ => .ok (some pUnitsZero)⟩

/-- Assigning a key always makes it readable with the assigned value. -/
theorem lookupStr_objSet_self (m : List (String × String)) (k v : String) :
    lookupStr (objSet m k v) k = some v := by
  induction m with
  | nil => simp [objSet, lookupStr]
  | cons hd tl ih =>
    by_cases hk : hd.1 = k
    · simp [objSet, lookupStr, hk]
    · simp [objSet, lookupStr, hk, ih]

/-- Assigning a key leaves every other key unchanged. -/
theorem lookupStr_objSet_ne {k k' : String} (hne : k' ≠ k)
    (m : List (String × String)) (v : String) :
    lookupStr (objSet m k v) k' = lookupStr m k' := by
  have hne' : ¬(k = k') := fun h => hne h.symm
  induction m with
  | nil => simp [objSet, lookupStr, hne']
  | cons hd tl ih =>
    by_cases hk : hd.1 = k
    · simp [objSet, lookupStr, hk, hne']
    · simp [objSet, lookupStr, hk, ih]

/-- The units key of the final product metadata map: the stringified units
value when units is present and truthy, the free-form entry otherwise. -/
theorem buildMeta_lookup_units (p : Product) :
    lookupStr (buildProductMetadata p) "units" =
      (match p.units with
       | some u =>
         if jsTruthy u then some (jsToString u)
         else lookupStr (freeformMetadataMap p) "units"
       | none => lookupStr (freeformMetadataMap p) "units") := by
  unfold buildProductMetadata
  cases hu : p.units with
  | none =>
    cases hv : p.isVending <;> cases ha : p.availableItems <;>
      simp [lookupStr_objSet_ne (show "units" ≠ "isVending" by decide),
            lookupStr_objSet_ne (show "units" ≠ "availableItems" by decide)]
  | some u =>
    by_cases ht : jsTruthy u <;>
      cases hv : p.isVending <;> cases ha : p.availableItems <;>
        simp [ht, lookupStr_objSet_self,
              lookupStr_objSet_ne (show "units" ≠ "isVending" by decide),
              lookupStr_objSet_ne (show "units" ≠ "availableItems" by decide)]

/-- The isVending key of the final product metadata map: the stringified
value whenever the field is defined, the free-form entry otherwise. -/
theorem buildMeta_lookup_isVending (p : Product) :
    lookupStr (buildProductMetadata p) "isVending" =
      (match p.isVending with
       | some v => some (jsToString v)
       | none => lookupStr (freeformMetadataMap p) "isVending") := by
  unfold buildProductMetadata
  cases hu : p.units with
  | none =>
    cases hv : p.isVending <;> cases ha : p.availableItems <;>
      simp [lookupStr_objSet_self,
            lookupStr_objSet_ne (show "isVending" ≠ "availableItems" by decide),
            lookupStr_objSet_ne (show "isVending" ≠ "units" by decide)]
  | some u =>
    by_cases ht : jsTruthy u <;>
      cases hv : p.isVending <;> cases ha : p.availableItems <;>
        simp [ht, lookupStr_objSet_self,
              lookupStr_objSet_ne (show "isVending" ≠ "availableItems" by decide),
              lookupStr_objSet_ne (show "isVending" ≠ "units" by decide)]

/-- The availableItems key of the final product metadata map: the
stringified value whenever the field is defined, the free-form entry
otherwise. -/
theorem buildMeta_lookup_availableItems (p : Product) :
    lookupStr (buildProductMetadata p) "availableItems" =
      (match p.availableItems with
       | some v => some (jsToString v)
       | none => lookupStr (freeformMetadataMap p) "availableItems") := by
  unfold buildProductMetadata
  cases hu : p.units with
  | none =>
    cases hv : p.isVending <;> cases ha : p.availableItems <;>
      simp [lookupStr_objSet_self,
            lookupStr_objSet_ne (show "availableItems" ≠ "isVending" by decide),
            lookupStr_objSet_ne (show "availableItems" ≠ "units" by decide)]
  | some u =>
    by_cases ht : jsTruthy u <;>
      cases hv : p.isVending <;> cases ha : p.availableItems <;>
        simp [ht, lookupStr_objSet_self,
              lookupStr_objSet_ne (show "availableItems" ≠ "isVending" by decide),
              lookupStr_objSet_ne (show "availableItems" ≠ "units" by decide)]

/-- Every key other than the three fixed names reaches the final product
metadata map exactly as the free-form conversion produced it. -/
theorem buildMeta_lookup_other (p : Product) (k : String)
    (h1 : k ≠ "units") (h2 : k ≠ "isVending") (h3 : k ≠ "availableItems") :
    lookupStr (buildProductMetadata p) k = lookupStr (freeformMetadataMap p) k := by
  unfold buildProductMetadata
  cases hu : p.units with
  | none =>
    cases hv : p.isVending <;> cases ha : p.availableItems <;>
      simp [lookupStr_objSet_ne h1, lookupStr_objSet_ne h2, lookupStr_objSet_ne h3]
  | some u =>
    by_cases ht : jsTruthy u <;>
      cases hv : p.isVending <;> cases ha : p.availableItems <;>
        simp [ht, lookupStr_objSet_ne h1, lookupStr_objSet_ne h2, lookupStr_objSet_ne h3]

/-- C1: every call to any of the three RPCs with a required identifier
field absent or empty returns an InvalidArgument error (for the two store
RPCs with the exact message about project_id and store_id) and performs no
collaborator lookup: both lookup counters stay at zero. -/
theorem invalid_identifier_rejected_without_lookup
    (c : Collaborators) (call : Metadata) (t : Nat)
    (sreq : StoreRequest) (preq : ProductRequest)
    (hs : strTruthy sreq.project_id = false ∨ strTruthy sreq.store_id = false)
    (hp : strTruthy preq.project_id = false ∨ strTruthy preq.store_id = false ∨
          strTruthy preq.stripe_code = false) :
    verifyStoreAccess c call sreq =
      ⟨.err .invalidArgument "project_id and store_id are required", 0, 0⟩ ∧
    getStoreInfo c call sreq t =
      ⟨.err .invalidArgument "project_id and store_id are required", 0, 0⟩ ∧
    getProductByStripeCode c call preq =
      ⟨.err .invalidArgument "project_id, store_id, and stripe_code are required", 0, 0⟩ := by
  refine ⟨?_, ?_, ?_⟩
  · rcases hs with h | h <;> simp [verifyStoreAccess, h]
  · rcases hs with h | h <;> simp [getStoreInfo, h]
  · rcases hp with h | h | h <;> simp [getProductByStripeCode, h]

/-- Witness for C1: an absent project_id on the store request and an empty
stripe_code on the product request produce the InvalidArgument results with
zero lookups, even against an always-failing collaborator. -/
theorem invalid_identifier_rejected_without_lookup_witness :
    verifyStoreAccess cError mdEmpty ⟨none, some "s"⟩ =
      ⟨.err .invalidArgument "project_id and store_id are required", 0, 0⟩ ∧
    getStoreInfo cError mdEmpty ⟨none, some "s"⟩ 0 =
      ⟨.err .invalidArgument "project_id and store_id are required", 0, 0⟩ ∧
    getProductByStripeCode cError mdEmpty ⟨some "p", some "s", some ""⟩ =
      ⟨.err .invalidArgument "project_id, store_id, and stripe_code are required", 0, 0⟩ :=
  invalid_identifier_rejected_without_lookup cError mdEmpty 0
    ⟨none, some "s"⟩ ⟨some "p", some "s", some ""⟩
    (Or.inl (by decide)) (Or.inr (Or.inr (by decide)))

/-- C2: environment resolution reads the env key first and falls back to
x-environment when env carries no value; the selected first value passes
through unchanged exactly when it equals prod or master case-sensitively,
and every other case resolves to demo; in particular the four enumerated
metadata configurations resolve to prod, master, demo and demo. -/
theorem environment_resolution_spec :
    (∀ call : Metadata, getEnvironmentFromMetadata call = resolvedEnvSpec call) ∧
    getEnvironmentFromMetadata (mdOf [("env", ["prod"]), ("x-environment", ["demo"])]) = "prod" ∧
    getEnvironmentFromMetadata (mdOf [("x-environment", ["master"])]) = "master" ∧
    getEnvironmentFromMetadata (mdOf [("env", ["bogus"])]) = "demo" ∧
    getEnvironmentFromMetadata (mdOf []) = "demo" := by
  refine ⟨?_, by decide, by decide, by decide, by decide⟩
  intro call
  unfold getEnvironmentFromMetadata resolvedEnvSpec
  cases h1 : call "env" with
  | nil =>
    cases h2 : call "x-environment" with
    | nil => simp [h1, h2]
    | cons a tl => simp [h1, h2]
  | cons a tl => simp [h1]

/-- C3: a valid GetProductByStripeCode request whose store lookup finds
nothing returns the default not-found product response and never queries
the product catalog: the product lookup counter stays at zero. -/
theorem product_lookup_short_circuits_on_missing_store
    (c : Collaborators) (call : Metadata) (pid sid code : String)
    (hp : pid ≠ "") (hs : sid ≠ "") (hc : code ≠ "")
    (h : c.getShopById (getEnvironmentFromMetadata call) sid = .ok none) :
    getProductByStripeCode c call ⟨some pid, some sid, some code⟩ =
      ⟨.ok ⟨false, code, "", "", "", 0, 0, sid, "", []⟩, 1, 0⟩ := by
  simp [getProductByStripeCode, strTruthy, hp, hs, hc, h, notFoundProduct]

/-- Witness for C3: the short-circuit response at a concrete request
against the collaborator whose store directory finds nothing. -/
theorem product_lookup_short_circuits_on_missing_store_witness :
    getProductByStripeCode cShopNone mdEmpty ⟨some "p", some "s", some "c1"⟩ =
      ⟨.ok ⟨false, "c1", "", "", "", 0, 0, "s", "", []⟩, 1, 0⟩ :=
  product_lookup_short_circuits_on_missing_store cShopNone mdEmpty "p" "s" "c1"
    (by decide) (by decide) (by decide) rfl

/-- C4 counterexample: the claim says every fixed name present on the
record is inserted into the metadata map, but a record whose units field
is present with the value 0 yields a found-product response whose metadata
map carries no units key at all, because the source guards the units
injection with JavaScript truthiness rather than definedness. -/
theorem units_zero_not_inserted_counterexample :
    pUnitsZero.units = some (JSValue.num 0) ∧
    lookupStr (buildProductMetadata pUnitsZero) "units" = none ∧
    (getProductByStripeCode cUnitsZero mdEmpty ⟨some "p", some "s", some "c1"⟩).outcome =
      .ok ⟨true, "c1", "", "", "", 0, 0, "s", "", [("a", "1")]⟩ :=
  ⟨rfl, rfl, by decide⟩

/-- C4 (amended): in the found-product branch the response metadata map is
the free-form metadata converted key by key (JSON text for structured
values, stringified scalars otherwise), after which units overrides the
map only when its value is truthy, while isVending and availableItems
override it whenever they are defined; the worked example with free-form
metadata a=1 and b nested plus units=3 yields the three-entry string map. -/
theorem product_metadata_map_construction :
    (∀ (c : Collaborators) (call : Metadata) (pid sid code : String)
       (shop : Shop) (product : Product),
       pid ≠ "" → sid ≠ "" → code ≠ "" →
       c.getShopById (getEnvironmentFromMetadata call) sid = .ok (some shop) →
       c.getProductById2 (getEnvironmentFromMetadata call) sid code = .ok (some product) →
       (getProductByStripeCode c call ⟨some pid, some sid, some code⟩).outcome =
         .ok ⟨true, strOr product.stripeCode code, strOr product.title "",
              strOr product.category "", strOr product.picture "",
              product.price.getD 0, product.purchasePrice.getD 0,
              strOr product.shopId sid, strOr product._id (strOr product.id ""),
              buildProductMetadata product⟩) ∧
    (∀ p : Product, lookupStr (buildProductMetadata p) "units" =
       (match p.units with
        | some u =>
          if jsTruthy u then some (jsToString u)
          else lookupStr (freeformMetadataMap p) "units"
        | none => lookupStr (freeformMetadataMap p) "units")) ∧
    (∀ p : Product, lookupStr (buildProductMetadata p) "isVending" =
       (match p.isVending with
        | some v => some (jsToString v)
        | none => lookupStr (freeformMetadataMap p) "isVending")) ∧
    (∀ p : Product, lookupStr (buildProductMetadata p) "availableItems" =
       (match p.availableItems with
        | some v => some (jsToString v)
        | none => lookupStr (freeformMetadataMap p) "availableItems")) ∧
    (∀ (p : Product) (k : String),
       k ≠ "units" → k ≠ "isVending" → k ≠ "availableItems" →
       lookupStr (buildProductMetadata p) k = lookupStr (freeformMetadataMap p) k) ∧
    buildProductMetadata pExample =
      [("a", "1"), ("b", "\x7b\"x\":2\x7d"), ("units", "3")] := by
  refine ⟨?_, buildMeta_lookup_units, buildMeta_lookup_isVending,
          buildMeta_lookup_availableItems, buildMeta_lookup_other, by decide⟩
  intro c call pid sid code shop product hp hs hc h1 h2
  simp [getProductByStripeCode, strTruthy, hp, hs, hc, h1, h2]

/-- Witness for C4 (amended): the found-product response against concrete
doubles carries exactly the metadata map of the worked example. -/
theorem product_metadata_map_construction_witness :
    (getProductByStripeCode cShopOpen mdEmpty ⟨some "p", some "s", some "c1"⟩).outcome =
      .ok ⟨true, "c1", "", "", "", 0, 0, "s", "",
           [("a", "1"), ("b", "\x7b\"x\":2\x7d"), ("units", "3")]⟩ :=
  product_metadata_map_construction.1 cShopOpen mdEmpty "p" "s" "c1"
    shopOpen pExample (by decide) (by decide) (by decide) rfl rfl

/-- C5: a valid VerifyStoreAccess request yields, as successful responses
echoing store_id and project_id: access denied with the not-found message
when the store directory finds nothing, access denied with the distinct
closed message when the found record has status closed, and access granted
otherwise. -/
theorem verify_store_access_outcomes
    (c : Collaborators) (call : Metadata) (pid sid : String)
    (hp : pid ≠ "") (hs : sid ≠ "") :
    (c.getShopById (getEnvironmentFromMetadata call) sid = .ok none →
       verifyStoreAccess c call ⟨some pid, some sid⟩ =
         ⟨.ok ⟨false, "Store " ++ sid ++ " not found", sid, pid⟩, 1, 0⟩) ∧
    (∀ shop, c.getShopById (getEnvironmentFromMetadata call) sid = .ok (some shop) →
       shop.status = some "closed" →
       verifyStoreAccess c call ⟨some pid, some sid⟩ =
         ⟨.ok ⟨false, "Store " ++ sid ++ " is closed", sid, pid⟩, 1, 0⟩) ∧
    (∀ shop, c.getShopById (getEnvironmentFromMetadata call) sid = .ok (some shop) →
       shop.status ≠ some "closed" →
       verifyStoreAccess c call ⟨some pid, some sid⟩ =
         ⟨.ok ⟨true, "Access granted", sid, pid⟩, 1, 0⟩) := by
  refine ⟨?_, ?_, ?_⟩
  · intro h
    simp [verifyStoreAccess, strTruthy, hp, hs, h]
  · intro shop h hclosed
    simp [verifyStoreAccess, strTruthy, hp, hs, h, hclosed]
  · intro shop h hopen
    simp [verifyStoreAccess, strTruthy, hp, hs, h, hopen]

/-- Witness for C5: the three outcomes at concrete requests against the
not-found, closed and open collaborator doubles. -/
theorem verify_store_access_outcomes_witness :
    verifyStoreAccess cShopNone mdEmpty ⟨some "p", some "s"⟩ =
      ⟨.ok ⟨false, "Store s not found", "s", "p"⟩, 1, 0⟩ ∧
    verifyStoreAccess cShopClosed mdEmpty ⟨some "p", some "s2"⟩ =
      ⟨.ok ⟨false, "Store s2 is closed", "s2", "p"⟩, 1, 0⟩ ∧
    verifyStoreAccess cShopOpen mdEmpty ⟨some "p", some "s"⟩ =
      ⟨.ok ⟨true, "Access granted", "s", "p"⟩, 1, 0⟩ :=
  ⟨(verify_store_access_outcomes cShopNone mdEmpty "p" "s"
      (by decide) (by decide)).1 rfl,
   (verify_store_access_outcomes cShopClosed mdEmpty "p" "s2"
      (by decide) (by decide)).2.1 shopClosed rfl rfl,
   (verify_store_access_outcomes cShopOpen mdEmpty "p" "s"
      (by decide) (by decide)).2.2 shopOpen rfl (by decide)⟩

/-- C6: a valid GetStoreInfo request whose store lookup finds nothing
returns a successful response with exists false, empty name, the resolved
environment, an empty metadata map, updated_at zero, and the request
identifiers echoed back. -/
theorem store_info_not_found_response
    (c : Collaborators) (call : Metadata) (t : Nat) (pid sid : String)
    (hp : pid ≠ "") (hs : sid ≠ "")
    (h : c.getShopById (getEnvironmentFromMetadata call) sid = .ok none) :
    getStoreInfo c call ⟨some pid, some sid⟩ t =
      ⟨.ok ⟨false, sid, "", getEnvironmentFromMetadata call, pid, [], 0⟩, 1, 0⟩ := by
  simp [getStoreInfo, strTruthy, hp, hs, h]

/-- Witness for C6: the not-found store info response at a concrete
request against the collaborator whose store directory finds nothing. -/
theorem store_info_not_found_response_witness :
    getStoreInfo cShopNone mdEmpty ⟨some "p", some "s"⟩ 0 =
      ⟨.ok ⟨false, "s", "", "demo", "p", [], 0⟩, 1, 0⟩ :=
  store_info_not_found_response cShopNone mdEmpty 0 "p" "s"
    (by decide) (by decide) rfl

/-- C7: a valid GetStoreInfo request whose store lookup finds a record
returns exists true; store_id is the record identifier falling back to the
requested one when it is absent or empty, name is the record name
defaulting to empty, and the metadata map has exactly the five keys
status, address, contact_no, shop_admin_email and shopType, the last
defaulting to store and the other four to the empty string when absent or
empty on the record (an empty string field behaves like an absent one
under the JavaScript fallbacks of the source). -/
theorem store_info_found_response
    (c : Collaborators) (call : Metadata) (t : Nat) (pid sid : String)
    (shop : Shop) (hp : pid ≠ "") (hs : sid ≠ "")
    (h : c.getShopById (getEnvironmentFromMetadata call) sid = .ok (some shop)) :
    getStoreInfo c call ⟨some pid, some sid⟩ t =
      ⟨.ok ⟨true,
            (match shop.id with | some i => if i = "" then sid else i | none => sid),
            (match shop.name with | some n => if n = "" then "" else n | none => ""),
            getEnvironmentFromMetadata call,
            pid,
            [("status",
              match shop.status with | some s => if s = "" then "" else s | none => ""),
             ("address",
              match shop.address with | some s => if s = "" then "" else s | none => ""),
             ("contact_no",
              match shop.contact_no with | some s => if s = "" then "" else s | none => ""),
             ("shop_admin_email",
              match shop.shop_admin_email with
              | some s => if s = "" then "" else s
              | none => ""),
             ("shopType",
              match shop.shopType with
              | some s => if s = "" then "store" else s
              | none => "store")],
            (match shop.updated_at with
             | some ms => if ms ≠ 0 then ms / 1000 else t / 1000
             | none => t / 1000)⟩, 1, 0⟩ := by
  simp [getStoreInfo, strTruthy, strOr, hp, hs, h]

/-- Witness for C7: the found store info response at a concrete request
against the collaborator returning the open shop record. -/
theorem store_info_found_response_witness :
    getStoreInfo cShopOpen mdEmpty ⟨some "p", some "s"⟩ 0 =
      ⟨.ok ⟨true, "s1", "Shop One", "demo", "p",
            [("status", "open"), ("address", "1 High Street"),
             ("contact_no", "123"), ("shop_admin_email", "admin@example.com"),
             ("shopType", "vending")], 5⟩, 1, 0⟩ :=
  store_info_found_response cShopOpen mdEmpty 0 "p" "s" shopOpen
    (by decide) (by decide) rfl

/-- C8: a collaborator lookup that throws surfaces on every RPC as an
Internal RPC error whose message embeds the original error text, while
not-found lookup results are never mapped to that error: they always leave
the handler with a successful outcome. -/
theorem collaborator_error_maps_to_internal
    (c : Collaborators) (call : Metadata) (t : Nat) (e : String)
    (pid sid code : String) (hp : pid ≠ "") (hs : sid ≠ "") (hc : code ≠ "") :
    (c.getShopById (getEnvironmentFromMetadata call) sid = .error e →
       (verifyStoreAccess c call ⟨some pid, some sid⟩).outcome =
         .err .internal ("Internal error: " ++ e) ∧
       (getStoreInfo c call ⟨some pid, some sid⟩ t).outcome =
         .err .internal ("Internal error: " ++ e) ∧
       (getProductByStripeCode c call ⟨some pid, some sid, some code⟩).outcome =
         .err .internal ("Internal error: " ++ e)) ∧
    (∀ shop, c.getShopById (getEnvironmentFromMetadata call) sid = .ok (some shop) →
       c.getProductById2 (getEnvironmentFromMetadata call) sid code = .error e →
       (getProductByStripeCode c call ⟨some pid, some sid, some code⟩).outcome =
         .err .internal ("Internal error: " ++ e)) ∧
    (c.getShopById (getEnvironmentFromMetadata call) sid = .ok none →
       ((verifyStoreAccess c call ⟨some pid, some sid⟩).outcome.isOk = true ∧
        (getStoreInfo c call ⟨some pid, some sid⟩ t).outcome.isOk = true ∧
        (getProductByStripeCode c call ⟨some pid, some sid, some code⟩).outcome.isOk
          = true)) ∧
    (∀ shop, c.getShopById (getEnvironmentFromMetadata call) sid = .ok (some shop) →
       c.getProductById2 (getEnvironmentFromMetadata call) sid code = .ok none →
       (getProductByStripeCode c call ⟨some pid, some sid, some code⟩).outcome.isOk
         = true) := by
  refine ⟨?_, ?_, ?_, ?_⟩
  · intro h
    refine ⟨?_, ?_, ?_⟩ <;>
      simp [verifyStoreAccess, getStoreInfo, getProductByStripeCode, strTruthy,
            hp, hs, hc, h]
  · intro shop h1 h2
    simp [getProductByStripeCode, strTruthy, hp, hs, hc, h1, h2]
  · intro h
    refine ⟨?_, ?_, ?_⟩ <;>
      simp [verifyStoreAccess, getStoreInfo, getProductByStripeCode, strTruthy,
            hp, hs, hc, h, RpcOutcome.isOk]
  · intro shop h1 h2
    simp [getProductByStripeCode, strTruthy, hp, hs, hc, h1, h2, RpcOutcome.isOk]

/-- Witness for C8: the Internal outcomes with the embedded message boom
against throwing doubles, and successful outcomes for not-found results. -/
theorem collaborator_error_maps_to_internal_witness :
    (verifyStoreAccess cError mdEmpty ⟨some "p", some "s"⟩).outcome =
      .err .internal "Internal error: boom" ∧
    (getProductByStripeCode cProductError mdEmpty
      ⟨some "p", some "s", some "c1"⟩).outcome =
      .err .internal "Internal error: boom" ∧
    (verifyStoreAccess cShopNone mdEmpty ⟨some "p", some "s"⟩).outcome.isOk = true ∧
    (getProductByStripeCode cProductNone mdEmpty
      ⟨some "p", some "s", some "c1"⟩).outcome.isOk = true :=
  ⟨((collaborator_error_maps_to_internal cError mdEmpty 0 "boom" "p" "s" "c1"
      (by decide) (by decide) (by decide)).1 rfl).1,
   (collaborator_error_maps_to_internal cProductError mdEmpty 0 "boom" "p" "s" "c1"
      (by decide) (by decide) (by decide)).2.1 shopOpen rfl rfl,
   ((collaborator_error_maps_to_internal cShopNone mdEmpty 0 "boom" "p" "s" "c1"
      (by decide) (by decide) (by decide)).2.2.1 rfl).1,
   (collaborator_error_maps_to_internal cProductNone mdEmpty 0 "boom" "p" "s" "c1"
      (by decide) (by decide) (by decide)).2.2.2 shopOpen rfl rfl⟩

/-- C9 counterexample: two identical GetStoreInfo calls against an
unchanged collaborator whose found record carries no last-updated
timestamp return different responses when the wall clock has moved, so
the handlers are not deterministic in request, metadata and collaborator
results alone. -/
theorem store_info_wall_clock_counterexample :
    getStoreInfo cNoTimestamp mdEmpty ⟨some "p", some "s"⟩ 0 ≠
      getStoreInfo cNoTimestamp mdEmpty ⟨some "p", some "s"⟩ 1000 := by decide

/-- C9 (amended): every handler is a deterministic function of request,
metadata, collaborator results and the current wall-clock reading;
GetStoreInfo in particular returns identical responses across clock
readings whenever every record the store directory can return carries a
nonzero last-updated timestamp, the only clock-dependent case being a
found record without one. -/
theorem store_info_clock_independent_with_timestamp
    (c : Collaborators) (call : Metadata) (pid sid : String)
    (t t' : Nat) (hp : pid ≠ "") (hs : sid ≠ "")
    (h : ∀ shop, c.getShopById (getEnvironmentFromMetadata call) sid = .ok (some shop) →
         ∃ ms, shop.updated_at = some ms ∧ ms ≠ 0) :
    getStoreInfo c call ⟨some pid, some sid⟩ t =
      getStoreInfo c call ⟨some pid, some sid⟩ t' := by
  cases hres : c.getShopById (getEnvironmentFromMetadata call) sid with
  | error e => simp [getStoreInfo, strTruthy, hp, hs, hres]
  | ok o =>
    cases o with
    | none => simp [getStoreInfo, strTruthy, hp, hs, hres]
    | some shop =>
      obtain ⟨ms, hms, hne⟩ := h shop hres
      simp [getStoreInfo, strTruthy, hp, hs, hres, hms, hne]

/-- Witness for C9 (amended): against the double returning the open shop,
whose timestamp is 5000 milliseconds, the responses at two far-apart clock
readings coincide. -/
theorem store_info_clock_independent_with_timestamp_witness :
    getStoreInfo cShopOpen mdEmpty ⟨some "p", some "s"⟩ 0 =
      getStoreInfo cShopOpen mdEmpty ⟨some "p", some "s"⟩ 999999 :=
  store_info_clock_independent_with_timestamp cShopOpen mdEmpty "p" "s" 0 999999
    (by decide) (by decide)
    (by
      intro shop h
      have h1 : some shopOpen = some shop := by injection h
      have h2 : shopOpen = shop := by injection h1
      subst h2
      exact ⟨5000, rfl, by decide⟩)

/-- C10: the three fixed metadata injections are asymmetric: units is
added only when the value is truthy, so a present units of 0 yields no
units key, while isVending and availableItems are added whenever defined,
including false, 0 and null, each stringified. -/
theorem fixed_metadata_injection_asymmetry :
    (∀ u vi ai : Option JSValue,
       (lookupStr (buildProductMetadata (productWithFlags u vi ai)) "units" =
          (match u with
           | some x => if jsTruthy x then some (jsToString x) else none
           | none => none)) ∧
       lookupStr (buildProductMetadata (productWithFlags u vi ai)) "isVending" =
         vi.map jsToString ∧
       lookupStr (buildProductMetadata (productWithFlags u vi ai)) "availableItems" =
         ai.map jsToString) ∧
    buildProductMetadata
        (productWithFlags (some (.num 0)) (some (.bool false)) (some .null)) =
      [("isVending", "false"), ("availableItems", "null")] ∧
    buildProductMetadata (productWithFlags (some (.str "")) (some (.num 0)) none) =
      [("isVending", "0")] := by
  refine ⟨?_, by decide, by decide⟩
  intro u vi ai
  refine ⟨?_, ?_, ?_⟩
  · rw [buildMeta_lookup_units]
    cases u with
    | none => rfl
    | some x =>
      by_cases h : jsTruthy x <;>
        simp [h, productWithFlags, freeformMetadataMap, freeformEntries, lookupStr]
  · rw [buildMeta_lookup_isVending]
    cases vi with
    | none => rfl
    | some x => simp [productWithFlags]
  · rw [buildMeta_lookup_availableItems]
    cases ai with
    | none => rfl
    | some x => simp [productWithFlags]

end RetailGrpc
